import Mathlib

/-!
# Verification of the Conversational Field-Extraction & Dialogue Orchestration Pipeline

Shallow embedding of the `ai-service` Python sources
(`app/services/field_extractor.py`, `question_generator.py`,
`intent_classifier.py`, `conversation_manager.py`, `answer_generator.py`,
`explanation_generator.py`, `openai_client.py`, `app/models/user_context.py`)
together with theorems settling the specification claims about them.

Python strings are modelled as Lean `String`; `None`-able values as `Option`;
JSON / dynamic values as the inductive `PyVal` / `Json`; LLM-gateway calls as
explicit `Except`-valued parameters so that both the success and the failure
branch of every `try`/`except` block are visible.
-/

namespace Stevie

/-! ## Python string primitives -/

/-- ASCII lower-casing of one character, as Python `str.lower` acts on the
ASCII range (all strings compared in the sources are ASCII). -/
def pyLowerChar (c : Char) : Char :=
  if 'A' ≤ c ∧ c ≤ 'Z' then Char.ofNat (c.toNat + 32) else c

/-- Python `str.lower()`. -/
def pyLower (s : String) : String := ⟨s.data.map pyLowerChar⟩

/-- Characters stripped by Python `str.strip()` (ASCII whitespace). -/
def pyWs (c : Char) : Bool :=
  c = ' ' ∨ c = '\t' ∨ c = '\n' ∨ c = '\r' ∨ c = '\x0b' ∨ c = '\x0c'

/-- Python `str.strip()`: drop leading and trailing whitespace. -/
def pyStrip (s : String) : String :=
  ⟨((s.data.dropWhile pyWs).reverse.dropWhile pyWs).reverse⟩

/-- Python slicing `s[:n]` (truncation to the first `n` characters). -/
def pyTrunc (n : Nat) (s : String) : String := ⟨s.data.take n⟩

/-- Python's substring test `needle in hay` on character lists. -/
def infixOf : List Char → List Char → Bool
  | n, [] => n.isEmpty
  | n, h :: t => n.isPrefixOf (h :: t) || infixOf n t

/-- Python `needle in hay` on strings. -/
def pyIn (needle hay : String) : Bool := infixOf needle.data hay.data

/-- `needle` occurs contiguously in `hay` (the propositional reading of
"the string contains ..."). -/
def containsS (needle hay : String) : Prop := needle.data <:+: hay.data

instance (needle hay : String) : Decidable (containsS needle hay) :=
  List.decidableInfix needle.data hay.data

/-- Splitting a character list at every occurrence of `sep` (Python
`str.split(sep)` for a one-character separator; both `split` calls in the
sources use `","` or `"\n"`). -/
def splitOnCharList (sep : Char) : List Char → List (List Char)
  | [] => [[]]
  | c :: t =>
    match splitOnCharList sep t with
    | [] => [[]]
    | g :: gs => if c = sep then [] :: g :: gs else (c :: g) :: gs

/-- Python `s.split(sep)` for a one-character separator. -/
def pySplit (sep : Char) (s : String) : List String :=
  (splitOnCharList sep s.data).map fun l => ⟨l⟩

/-- Python `sep.join(parts)`. -/
def sjoin (sep : String) : List String → String
  | [] => ""
  | [x] => x
  | x :: y :: t => x ++ sep ++ sjoin sep (y :: t)

/-- Python `list(set(xs))`.  CPython's set iteration order is unspecified;
we fix the representative `List.dedup`.  Every theorem below that goes
through this function only uses it on lists whose deduplication is
order-independent (empty or singleton). -/
def pySetList (l : List String) : List String := l.dedup

/-! ## Dynamic (JSON-decoded) Python values

The raw field values handed to the extractor come from `json.loads`; they are
strings, numbers, booleans, `None`, lists or objects. -/

inductive PyVal where
  | str (s : String)
  | num (n : Int)
  | boolean (b : Bool)
  | none
  | arr (xs : List PyVal)
  | obj (fields : List (String × PyVal))

/-- Python `str(value)` on the scalar shapes the sources apply it to
(`str()` of a list/object never reaches an enum comparison that succeeds,
and the `achievement_focus` wrap branch only sees non-list scalars). -/
def pyStr : PyVal → String
  | .str s => s
  | .num n => toString n
  | .boolean b => if b then "True" else "False"
  | .none => "None"
  | .arr _ => "<list>"
  | .obj _ => "<dict>"

/-! ## Data model: `app/models/user_context.py`

`UserContext` is a pydantic model with `use_enum_values = True`, so enum
fields are stored as their string values; every field is `Optional`. -/

structure UserContext where
  geography : Option String := Option.none
  organization_name : Option String := Option.none
  job_title : Option String := Option.none
  org_type : Option String := Option.none
  org_size : Option String := Option.none
  nomination_subject : Option String := Option.none
  description : Option String := Option.none
  achievement_focus : Option (List String) := Option.none
  tech_orientation : Option String := Option.none
  operating_scope : Option String := Option.none
deriving DecidableEq

/-- The `(name, value)` pairs of the `Geography` enum. -/
def geographyMembers : List (String × String) :=
  [("WORLDWIDE", "worldwide"),
   ("ASIA_PACIFIC_MIDDLE_EAST_NORTH_AFRICA", "asia_pacific_middle_east_north_africa"),
   ("EUROPE", "europe"),
   ("LATIN_AMERICA", "latin_america"),
   ("USA", "usa"),
   ("CANADA", "canada")]

/-- The `(name, value)` pairs of the `OrganizationType` enum. -/
def organizationTypeMembers : List (String × String) :=
  [("FOR_PROFIT", "for_profit"), ("NON_PROFIT", "non_profit"), ("GOVERNMENT", "government")]

/-- The `(name, value)` pairs of the `OrganizationSize` enum. -/
def organizationSizeMembers : List (String × String) :=
  [("SMALL", "small"), ("MEDIUM", "medium"), ("LARGE", "large")]

/-- The `(name, value)` pairs of the `NominationSubject` enum. -/
def nominationSubjectMembers : List (String × String) :=
  [("ORGANIZATION", "organization"), ("TEAM", "team"),
   ("INDIVIDUAL", "individual"), ("PRODUCT", "product")]

/-- The `(name, value)` pairs of the `OperatingScope` enum. -/
def operatingScopeMembers : List (String × String) :=
  [("LOCAL", "local"), ("REGIONAL", "regional"),
   ("NATIONAL", "national"), ("INTERNATIONAL", "international")]

/-- The `(name, value)` pairs of the `TechOrientation` enum. -/
def techOrientationMembers : List (String × String) :=
  [("TECH_COMPANY", "tech_company"), ("TECH_USER", "tech_user"), ("NON_TECH", "non_tech")]

/-! ## Field extractor: `app/services/field_extractor.py` -/

/-- `FieldExtractor.REQUIRED_FIELDS`. -/
def REQUIRED_FIELDS : List String :=
  ["org_type", "org_size", "nomination_subject", "description", "achievement_focus"]

/-- `FieldExtractor.ENUM_MAPPINGS` (field name ↦ the enum's member list). -/
def ENUM_MAPPINGS : List (String × List (String × String)) :=
  [("geography", geographyMembers),
   ("org_type", organizationTypeMembers),
   ("org_size", organizationSizeMembers),
   ("nomination_subject", nominationSubjectMembers),
   ("operating_scope", operatingScopeMembers),
   ("tech_orientation", techOrientationMembers)]

/-- `str(value).lower().replace(" ", "_").replace("-", "_")` (replacement of
single characters commutes with composing the two `replace` calls). -/
def normalizeEnumValue (v : PyVal) : String :=
  ⟨(pyStr v).data.map fun c =>
    let c' := pyLowerChar c
    if c' = ' ' ∨ c' = '-' then '_' else c'⟩

/-- `FieldExtractor._validate_enum_field`: `some w` models returning the
string `w`, `none` models returning Python `None`. -/
def validateEnumField (fieldName : String) (value : PyVal) : Option String :=
  match (ENUM_MAPPINGS.lookup fieldName) with
  | Option.none => Option.some (pyStr value)
  | Option.some members =>
    let valueLower := normalizeEnumValue value
    members.findSome? fun m =>
      if m.2 = valueLower ∨ pyLower m.1 = valueLower then Option.some m.2 else Option.none

/-- Whether a `UserContext` field named `f` survives
`context.model_dump(exclude_none=True)` (i.e. the field is set). -/
def fieldPresent (ctx : UserContext) (f : String) : Bool :=
  if f = "geography" then ctx.geography.isSome
  else if f = "organization_name" then ctx.organization_name.isSome
  else if f = "job_title" then ctx.job_title.isSome
  else if f = "org_type" then ctx.org_type.isSome
  else if f = "org_size" then ctx.org_size.isSome
  else if f = "nomination_subject" then ctx.nomination_subject.isSome
  else if f = "description" then ctx.description.isSome
  else if f = "achievement_focus" then ctx.achievement_focus.isSome
  else if f = "tech_orientation" then ctx.tech_orientation.isSome
  else if f = "operating_scope" then ctx.operating_scope.isSome
  else false

/-- `FieldExtractor._check_completeness`: after
`model_dump(exclude_none=True)` a required field fails the check exactly
when it is absent from the dump (the `is None` re-test can no longer fire). -/
def checkCompleteness (ctx : UserContext) : Bool :=
  REQUIRED_FIELDS.all fun f => fieldPresent ctx f

/-- The `keywords_map` of `FieldExtractor._infer_achievement_focus`,
in source (insertion) order. -/
def keywordsMap : List (String × List String) :=
  [("ai", ["Artificial Intelligence", "Technology"]),
   ("artificial intelligence", ["Artificial Intelligence", "Technology"]),
   ("machine learning", ["Machine Learning", "Technology"]),
   ("ml", ["Machine Learning", "Technology"]),
   ("blockchain", ["Blockchain", "Technology"]),
   ("cloud", ["Cloud Computing", "Technology"]),
   ("cybersecurity", ["Cybersecurity", "Technology"]),
   ("data", ["Data Analytics", "Technology"]),
   ("analytics", ["Data Analytics", "Technology"]),
   ("software", ["Software Development", "Technology"]),
   ("mobile", ["Mobile Technology", "Technology"]),
   ("iot", ["Internet of Things", "Technology"]),
   ("automation", ["Automation", "Technology"]),
   ("digital", ["Digital Transformation", "Technology"]),
   ("who", ["Healthcare", "Global Recognition", "Quality Management"]),
   ("health", ["Healthcare"]),
   ("medical", ["Healthcare", "Medical Innovation"]),
   ("patient", ["Healthcare", "Patient Care"]),
   ("rating", ["Quality Management", "Performance Excellence"]),
   ("quality", ["Quality Management"]),
   ("certification", ["Quality Management", "Compliance"]),
   ("compliance", ["Compliance", "Quality Management"]),
   ("safety", ["Safety", "Quality Management"]),
   ("marketing", ["Marketing", "Brand Management"]),
   ("brand", ["Brand Management", "Marketing"]),
   ("advertising", ["Advertising", "Marketing"]),
   ("sales", ["Sales", "Revenue Growth"]),
   ("revenue", ["Revenue Growth", "Financial Performance"]),
   ("customer service", ["Customer Service", "Customer Experience"]),
   ("customer experience", ["Customer Experience"]),
   ("customer support", ["Customer Service", "Customer Experience"]),
   ("cx", ["Customer Experience"]),
   ("innovation", ["Innovation", "Product Development"]),
   ("product", ["Product Development", "Product Excellence"]),
   ("service", ["Service Excellence"]),
   ("ecommerce", ["E-commerce", "Digital Commerce"]),
   ("e-commerce", ["E-commerce", "Digital Commerce"]),
   ("leadership", ["Leadership", "Management Excellence"]),
   ("management", ["Management Excellence"]),
   ("team", ["Team Performance", "Collaboration"]),
   ("collaboration", ["Collaboration", "Team Performance"]),
   ("culture", ["Organizational Culture", "Employee Engagement"]),
   ("employee", ["Employee Engagement", "Human Resources"]),
   ("diversity", ["Diversity & Inclusion"]),
   ("inclusion", ["Diversity & Inclusion"]),
   ("hr", ["Human Resources"]),
   ("talent", ["Talent Management", "Human Resources"]),
   ("growth", ["Business Growth", "Revenue Growth"]),
   ("profit", ["Financial Performance"]),
   ("expansion", ["Business Growth", "Market Expansion"]),
   ("global", ["Global Operations", "International Expansion"]),
   ("international", ["International Expansion"]),
   ("worldwide", ["Global Operations", "International Expansion"]),
   ("performance", ["Performance Excellence"]),
   ("excellence", ["Performance Excellence"]),
   ("achievement", ["Performance Excellence"]),
   ("education", ["Education", "Training & Development"]),
   ("training", ["Training & Development"]),
   ("finance", ["Finance", "Financial Services"]),
   ("banking", ["Finance", "Financial Services"]),
   ("retail", ["Retail", "E-commerce"]),
   ("manufacturing", ["Manufacturing", "Operations Excellence"]),
   ("logistics", ["Logistics", "Supply Chain"]),
   ("supply chain", ["Supply Chain", "Operations Excellence"]),
   ("operations", ["Operations Excellence"]),
   ("sustainability", ["Sustainability", "Environmental Responsibility"]),
   ("environment", ["Environmental Responsibility"]),
   ("green", ["Sustainability", "Environmental Responsibility"]),
   ("social", ["Social Responsibility", "Community Impact"]),
   ("community", ["Community Impact"]),
   ("charity", ["Social Responsibility", "Community Impact"]),
   ("nonprofit", ["Social Responsibility"]),
   ("communication", ["Communication", "Public Relations"]),
   ("pr", ["Public Relations", "Communication"]),
   ("social media", ["Social Media", "Digital Marketing"]),
   ("content", ["Content Marketing", "Marketing"]),
   ("seo", ["SEO", "Digital Marketing"]),
   ("web", ["Web Development", "Technology"]),
   ("website", ["Web Development", "Technology"]),
   ("award", ["Recognition", "Excellence"]),
   ("recognition", ["Recognition", "Excellence"]),
   ("winner", ["Recognition", "Excellence"]),
   ("best", ["Excellence"]),
   ("top", ["Excellence"])]

/-- The `achievement_patterns` table of `_infer_achievement_focus`. -/
def achievementPatterns : List (String × List String) :=
  [("increased", ["Performance Excellence", "Growth"]),
   ("improved", ["Performance Excellence", "Continuous Improvement"]),
   ("launched", ["Innovation", "Product Development"]),
   ("developed", ["Product Development", "Innovation"]),
   ("created", ["Innovation", "Creativity"]),
   ("achieved", ["Performance Excellence"]),
   ("won", ["Recognition", "Excellence"]),
   ("gained", ["Growth", "Market Success"]),
   ("grew", ["Business Growth"]),
   ("expanded", ["Business Growth", "Market Expansion"]),
   ("transformed", ["Transformation", "Innovation"]),
   ("revolutionized", ["Innovation", "Disruption"]),
   ("pioneered", ["Innovation", "Leadership"])]

/-- The tags a keyword table contributes to a description: `extend` over all
entries whose keyword occurs in the lower-cased description. -/
def matchedAreas (table : List (String × List String)) (descriptionLower : String) :
    List String :=
  (table.filter fun kv => pyIn kv.1 descriptionLower).flatMap fun kv => kv.2

/-- `FieldExtractor._infer_achievement_focus`. -/
def inferAchievementFocus (description : String) : List String :=
  let descriptionLower := pyLower description
  let focusAreas := matchedAreas keywordsMap descriptionLower
  let focusAreas := pySetList focusAreas
  let focusAreas :=
    if focusAreas = [] then matchedAreas achievementPatterns descriptionLower
    else focusAreas
  let focusAreas :=
    if focusAreas = [] then
      if description.length > 50 then ["Business Excellence"]
      else ["General Achievement"]
    else focusAreas
  pySetList focusAreas

/-- The `achievement_focus` arm of the validation loop in
`FieldExtractor.extract_fields`: a list is taken as-is, a string is split on
commas with blank parts stripped and dropped, any other scalar is wrapped
into a one-element list via `str`. -/
def normalizeAchievementFocus : PyVal → List PyVal
  | .arr xs => xs
  | .str s => ((pySplit ',' s).map pyStrip).filter (fun t => t ≠ "") |>.map PyVal.str
  | v => [PyVal.str (pyStr v)]

/-- The validation loop of `FieldExtractor.extract_fields` over the raw
extracted fields.  An enum field is kept only when `_validate_enum_field`
returns a truthy value (the enum values are non-empty strings, so truthiness
coincides with being non-`None`); `achievement_focus` is normalised; every
other field passes through unchanged. -/
def validateFields (extracted : List (String × PyVal)) : List (String × PyVal) :=
  extracted.filterMap fun kv =>
    if (ENUM_MAPPINGS.lookup kv.1).isSome then
      match validateEnumField kv.1 kv.2 with
      | Option.some w => if w ≠ "" then Option.some (kv.1, PyVal.str w) else Option.none
      | Option.none => Option.none
    else if kv.1 = "achievement_focus" then
      Option.some (kv.1, PyVal.arr (normalizeAchievementFocus kv.2))
    else
      Option.some kv

/-! ## Question generator: `app/services/question_generator.py`

The LLM prompt text composed by `generate_question` feeds only the Gateway;
no claim refers to it, so the Gateway call is modelled by an `Except`-valued
parameter holding the provider's reply (or its failure). -/

/-- `QuestionGenerator.FIELD_ORDER`. -/
def FIELD_ORDER : List String :=
  ["org_type", "org_size", "nomination_subject", "description",
   "achievement_focus", "tech_orientation", "operating_scope"]

/-- `QuestionGenerator._get_next_field_to_collect`: first field of
`FIELD_ORDER` missing from `context.model_dump(exclude_none=True)`. -/
def nextFieldToCollect (ctx : UserContext) : Option String :=
  FIELD_ORDER.find? fun f => ! fieldPresent ctx f

/-- The `fallback_questions` table of `generate_question`. -/
def fallbackQuestions : List (String × String) :=
  [("org_type", "What type of organization are you nominating? (for-profit, non-profit, or government)"),
   ("org_size", "What is the size of your organization? (small: up to 100 employees, medium: 101-2,500, or large: 2,501+)"),
   ("nomination_subject", "What are you nominating? (organization, team, individual, or product)"),
   ("description", "Please describe the achievement or accomplishment you'd like to nominate."),
   ("achievement_focus", "What areas does this achievement focus on? (e.g., Marketing, Innovation, Customer Service, Technology)"),
   ("tech_orientation", "How would you describe your organization's relationship with technology? (tech company, tech user, or non-tech)"),
   ("operating_scope", "What is your organization's operating scope? (local, regional, national, or international)")]

/-- Python `str.strip(chars)` for an explicit character set. -/
def pyStripChars (p : Char → Bool) (s : String) : String :=
  ⟨((s.data.dropWhile p).reverse.dropWhile p).reverse⟩

/-- `question.strip().strip('"').strip("'")` cleanup in `generate_question`. -/
def cleanQuestion (q : String) : String :=
  pyStripChars (fun c => c = '\'') (pyStripChars (fun c => c = '"') (pyStrip q))

/-- The dictionary returned by `QuestionGenerator.generate_question`. -/
structure QuestionResult where
  question : Option String
  message : Option String
  conversation_state : String
deriving DecidableEq

/-- The fixed collection-complete message of `generate_question`. -/
def collectionCompleteMessage : String :=
  "Thank you! I have all the information needed to find the best Stevie Awards categories for you."

/-- `QuestionGenerator.generate_question` (the `extracted_fields` entry of
the returned dict is `{}` on every path and is omitted).  `gw` is the
Gateway's reply; the second component records whether the Gateway was
called. -/
def generateQuestion (gw : Except Unit String) (ctx : UserContext) :
    QuestionResult × Bool :=
  match nextFieldToCollect ctx with
  | Option.none =>
    (⟨Option.none, Option.some collectionCompleteMessage, "complete"⟩, false)
  | Option.some f =>
    match gw with
    | Except.ok q =>
      (⟨Option.some (cleanQuestion q), Option.none, "collecting_" ++ f⟩, true)
    | Except.error _ =>
      (⟨Option.some ((fallbackQuestions.lookup f).getD "Could you tell me more about your nomination?"),
        Option.none, "collecting_" ++ f⟩, true)

/-! ## Intent classifier: `app/services/intent_classifier.py` -/

/-- JSON values as produced by `json.loads` on the classifier's reply
(numbers as rationals, covering Python floats such as `0.8`). -/
inductive Json where
  | str (s : String)
  | num (q : ℚ)
  | boolean (b : Bool)
  | null
  | arr (xs : List Json)
  | obj (fields : List (String × Json))

/-- Python `float(x)` on a JSON value; `Option.none` models the call
raising.  `float` on a string parses a numeral: that partial parse is the
`floatOfString` parameter threaded through the classifier. -/
def jsonFloat (floatOfString : String → Option ℚ) : Json → Option ℚ
  | .num q => Option.some q
  | .boolean b => Option.some (if b then 1 else 0)
  | .str s => floatOfString s
  | .null => Option.none
  | .arr _ => Option.none
  | .obj _ => Option.none

/-- Python dict assignment `d[k] = v`: update in place when the key exists,
append otherwise. -/
def dictSet (fields : List (String × Json)) (k : String) (v : Json) :
    List (String × Json) :=
  if fields.any (fun kv => kv.1 = k) then
    fields.map fun kv => if kv.1 = k then (k, v) else kv
  else fields ++ [(k, v)]

/-- Whether `result.get("intent")` lies in `["question", "information",
"mixed"]`. -/
def intentValueOk (v : Option Json) : Bool :=
  match v with
  | Option.some (.str s) => s = "question" ∨ s = "information" ∨ s = "mixed"
  | _ => false

/-- The body of `classify_intent`'s inner `try` after a successful
`json.loads`: normalise the intent value, convert and clamp the confidence.
`Except.error` carries the message of an exception that escapes to the
outer handler (`result.get` on a non-dict, a failing `float(...)`). -/
def processClassification (floatOfString : String → Option ℚ) (j : Json) :
    Except String Json :=
  match j with
  | .obj fields =>
    let fields :=
      if intentValueOk (fields.lookup "intent") then fields
      else dictSet fields "intent" (.str "information")
    match jsonFloat floatOfString ((fields.lookup "confidence").getD (.num (4/5))) with
    | Option.some c =>
      Except.ok (Json.obj (dictSet fields "confidence" (.num (max 0 (min 1 c)))))
    | Option.none => Except.error "could not convert confidence to float"
  | _ => Except.error "object has no attribute get"

/-- The inner `json.JSONDecodeError` fallback dict of `classify_intent`. -/
def intentFallbackParse : Json :=
  .obj [("intent", .str "information"), ("confidence", .num (1/2)),
        ("reasoning", .str "Failed to parse LLM response, defaulting to information intent")]

/-- The outer `except Exception` fallback dict of `classify_intent`. -/
def intentFallbackError (msg : String) : Json :=
  .obj [("intent", .str "information"), ("confidence", .num (1/2)),
        ("reasoning", .str ("Classification failed: " ++ msg))]

/-- `IntentClassifier.classify_intent`.  `gwResponse` is the Gateway call:
`Except.error msg` a raised exception, `Except.ok Option.none` a reply on
which `json.loads` raises `JSONDecodeError`, `Except.ok (Option.some j)` a
reply decoding to `j`. -/
def classifyIntent (floatOfString : String → Option ℚ)
    (gwResponse : Except String (Option Json)) : Json :=
  match gwResponse with
  | Except.error e => intentFallbackError e
  | Except.ok Option.none => intentFallbackParse
  | Except.ok (Option.some j) =>
    match processClassification floatOfString j with
    | Except.ok r => r
    | Except.error e => intentFallbackError e

/-! ## Conversation manager: `app/services/conversation_manager.py` -/

/-- One entry of `conversation_history`. -/
structure Msg where
  role : String
  content : String
deriving DecidableEq

/-- A knowledge-base article as consumed by `_build_kb_context` /
`_build_context`: a dict read through `.get` with per-key defaults. -/
structure Article where
  title : Option String := Option.none
  content : Option String := Option.none
  program : Option String := Option.none
deriving DecidableEq

/-- `article.get("title", "Untitled")`. -/
def Article.titleD (a : Article) : String := a.title.getD "Untitled"

/-- `article.get("content", "")`. -/
def Article.contentD (a : Article) : String := a.content.getD ""

/-- `article.get("program", "General")`. -/
def Article.programD (a : Article) : String := a.program.getD "General"

/-- Python `l[-n:]`. -/
def lastN (n : Nat) (l : List α) : List α := l.drop (l.length - n)

/-- Truthiness of an optional string (`None` and `""` are falsy). -/
def truthyS (o : Option String) : Bool :=
  match o with
  | Option.some s => s ≠ ""
  | Option.none => false

/-- Python `str.capitalize()`: first character upper-cased, rest
lower-cased (ASCII). -/
def pyCapitalize (s : String) : String :=
  match s.data with
  | [] => ""
  | c :: t =>
    ⟨(if 'a' ≤ c ∧ c ≤ 'z' then Char.ofNat (c.toNat - 32) else c) :: t.map pyLowerChar⟩

/-- The per-message trigger of the recommendations-shown heuristic in
`_build_user_prompt`. -/
def showsRecommendations (m : Msg) : Bool :=
  m.role = "assistant" && m.content.data.length > 100 &&
    (pyIn "matching categories" (pyLower m.content) || pyIn "✨" m.content ||
      pyIn "here are" (pyLower m.content))

/-- `recommendations_shown` in `_build_user_prompt`: any trigger among the
last four history messages (the guard `if len >= 4` is redundant with
Python's `[-4:]` slice and is preserved as written). -/
def recommendationsShown (h : List Msg) : Bool :=
  (if h.length ≥ 4 then lastN 4 h else h).any showsRecommendations

/-- The `context_summary` of `_build_user_prompt` (truthiness guards:
empty strings are skipped like `None`). -/
def cmContextSummary (ctx : UserContext) : String :=
  let parts :=
    (if truthyS ctx.organization_name then
      ["Organization: " ++ ctx.organization_name.getD ""] else []) ++
    (if truthyS ctx.nomination_subject then
      ["Nominating: " ++ ctx.nomination_subject.getD ""] else []) ++
    (if truthyS ctx.description then
      ["About: " ++ pyTrunc 150 (ctx.description.getD "")] else [])
  if parts = [] then "Just started conversation" else sjoin "\n" parts

/-- The `history_summary` of `_build_user_prompt` (last six messages). -/
def cmHistorySummary (h : List Msg) : String :=
  let lines := (lastN 6 h).map fun m => pyCapitalize m.role ++ ": " ++ m.content
  if lines = [] then "No previous messages" else sjoin "\n" lines

/-- The per-article lines `ConversationManager._build_kb_context` appends
for the top **3** articles (`articles[:3]`), content truncated to 500
characters. -/
def kbContextParts (articles : List Article) : List String :=
  (List.enumFrom 1 (articles.take 3)).flatMap fun ia =>
    ["[Source " ++ toString ia.1 ++ " - " ++ ia.2.programD ++ "]",
     "Title: " ++ ia.2.titleD,
     "Content: " ++ pyTrunc 500 ia.2.contentD,
     ""]

/-- `ConversationManager._build_kb_context`. -/
def buildKbContext (articles : List Article) : String :=
  if articles = [] then "No relevant articles found"
  else sjoin "\n" (kbContextParts articles)

/-- The prompt `_build_user_prompt` returns, by branch, carrying the data
interpolated into the corresponding f-string template (the surrounding
instruction prose is fixed per constructor and not restated). -/
inductive BuiltPrompt where
  | recsShown (contextSummary historySummary message : String)
  | questionKb (contextSummary historySummary message kbContext : String)
  | questionNoKb (contextSummary historySummary message : String)
  | informationPrompt (contextSummary historySummary message missingText : String)
  | mixedKb (contextSummary historySummary message kbContext : String)
  | mixedNoKb (contextSummary historySummary message : String)

/-- `ConversationManager._build_user_prompt`.  `Except.error` models a
raised exception: on the information branch the very first statement reads
`user_context.user_name`, an attribute `UserContext` does not define, so
pydantic raises `AttributeError` before the prompt can be built (the
`informationPrompt` constructor is therefore unreachable from this
function). -/
def buildUserPrompt (message : String) (intentType : String) (history : List Msg)
    (ctx : UserContext) (kb : Option (List Article)) : Except String BuiltPrompt :=
  let contextSummary := cmContextSummary ctx
  let historySummary := cmHistorySummary history
  if recommendationsShown history then
    Except.ok (.recsShown contextSummary historySummary message)
  else if intentType = "question" then
    -- `kb_context = self._build_kb_context(kb_articles) if kb_articles else
    -- "No KB articles found"`; the falsy-side string is used by no branch,
    -- since `has_relevant_kb` is exactly the same truthiness test.
    if (kb.getD []) ≠ [] then
      Except.ok (.questionKb contextSummary historySummary message
        (buildKbContext (kb.getD [])))
    else
      Except.ok (.questionNoKb contextSummary historySummary message)
  else if intentType = "information" then
    Except.error "'UserContext' object has no attribute 'user_name'"
  else
    if (kb.getD []) ≠ [] then
      Except.ok (.mixedKb contextSummary historySummary message
        (buildKbContext (kb.getD [])))
    else
      Except.ok (.mixedNoKb contextSummary historySummary message)

/-- The Gateway's observable streaming behaviour for one call: the chunks
it yields, and whether it raises after them (a mid-stream provider
failure). -/
structure StreamBehavior where
  chunks : List String
  fails : Bool

/-- The fixed apology `generate_response_stream` yields from its
`except` handler. -/
def apologyMessage : String :=
  "I apologize, but I encountered an error. Could you please try again?"

/-- `ConversationManager.generate_response_stream`: the list of yielded
text fragments, paired with whether the Gateway was contacted.
`intentVal` is `intent.get("intent", "information")`'s source value. -/
def generateResponseStream (gw : StreamBehavior) (message : String)
    (intentVal : Option String) (history : List Msg) (ctx : UserContext)
    (kb : Option (List Article)) : List String × Bool :=
  let intentType := intentVal.getD "information"
  match buildUserPrompt message intentType history ctx kb with
  | Except.error _ => ([apologyMessage], false)
  | Except.ok _ =>
    if gw.fails then (gw.chunks ++ [apologyMessage], true) else (gw.chunks, true)

/-! ## Answer generator: `app/services/answer_generator.py` -/

/-- The per-article lines `AnswerGenerator._build_context` appends for the
top **5** articles (`articles[:5]`), content included in full. -/
def answerContextParts (articles : List Article) : List String :=
  (List.enumFrom 1 (articles.take 5)).flatMap fun ia =>
    ["[Source " ++ toString ia.1 ++ " - " ++ ia.2.programD ++ "]",
     "Title: " ++ ia.2.titleD,
     "Content: " ++ ia.2.contentD,
     ""]

/-- `AnswerGenerator._build_context`. -/
def buildAnswerContext (articles : List Article) : String :=
  sjoin "\n" (answerContextParts articles)

/-! ## LLM Gateway: `app/services/openai_client.py`

`chat_completion` is decorated with
`@retry(stop=stop_after_attempt(3), wait=wait_exponential(multiplier=1,
min=2, max=10), retry=retry_if_exception_type(OpenAIError),
reraise=True)`; its own body re-raises every `OpenAIError` unchanged, so
the retry loop below is the decorator's semantics over the per-attempt
outcome function. -/

/-- Subclasses of `openai.OpenAIError` a provider call can raise. -/
inductive OpenAIErrorKind where
  | rateLimit
  | timeout
  | serverError
  | authentication
  | badRequest
deriving DecidableEq

/-- An exception escaping one attempt of `chat_completion`: an
`OpenAIError` of some kind, or any other exception. -/
inductive CallError where
  | openai (k : OpenAIErrorKind)
  | other
deriving DecidableEq

/-- `retry_if_exception_type(OpenAIError)`. -/
def isOpenAIError : CallError → Bool
  | .openai _ => true
  | .other => false

/-- tenacity's retry loop with `reraise=True`: run attempt `n`; on a
predicate-matching exception retry while retries remain, otherwise
re-raise.  Returns the index of the last attempt made together with its
outcome. -/
def tenacityRun (retryOn : CallError → Bool)
    (attempt : Nat → Except CallError String) :
    Nat → Nat → Nat × Except CallError String
  | remaining, n =>
    match attempt n with
    | Except.ok s => (n, Except.ok s)
    | Except.error e =>
      match remaining with
      | 0 => (n, Except.error e)
      | r + 1 =>
        if retryOn e then tenacityRun retryOn attempt r (n + 1)
        else (n, Except.error e)

/-- `chat_completion` under its `@retry` decorator: `attempt i` is the
outcome of the `i`-th (1-indexed) API call; `stop_after_attempt(3)` allows
two retries after the first attempt.  First component: how many attempts
were made. -/
def chatCompletion (attempt : Nat → Except CallError String) :
    Nat × Except CallError String :=
  tenacityRun isOpenAIError attempt 2 1

/-- The sleep tenacity inserts after failed attempt `n`:
`wait_exponential(multiplier=1, min=2, max=10)` computes
`multiplier * 2 ** n` clamped into `[min, max]` seconds. -/
def chatCompletionWait (n : Nat) : Nat :=
  max 2 (min 10 (1 * 2 ^ n))

/-! ## Explanation generator: `app/services/explanation_generator.py` -/

/-- Interpolating an optional string into an f-string (`None` prints as
`"None"`). -/
def pyStrOpt (o : Option String) : String := o.getD "None"

/-- `line.strip().lstrip("-•*").strip()` applied to one line. -/
def stripBullets (line : String) : String :=
  pyStrip (pyStripChars (fun c => c = '-' ∨ c = '•' ∨ c = '*') (pyStrip line))

/-- Python `s.startswith(p)`. -/
def pyStartsWith (p s : String) : Bool := p.data.isPrefixOf s.data

/-- The reason-parsing comprehension of `generate_explanation`: split the
stripped response on newlines, keep non-blank lines not starting with
`#`, strip bullet markers. -/
def parseReasons (response : String) : List String :=
  (pySplit '\n' (pyStrip response)).filterMap fun line =>
    if pyStrip line ≠ "" ∧ ! pyStartsWith "#" (pyStrip line) then
      Option.some (stripBullets line)
    else Option.none

/-- The reason list `generate_explanation` returns for a successful model
reply: parsed reasons limited to 3, padded with the single templated
reason when fewer than 2 were parsed. -/
def explanationReasons (ctx : UserContext) (response : String) : List String :=
  let reasons := (parseReasons response).take 3
  if reasons.length < 2 then
    reasons ++
      ["This category aligns with your " ++ pyStrOpt ctx.nomination_subject ++ " nomination."]
  else reasons

/-- `ExplanationGenerator.generate_explanation` (the category argument
feeds only the prompt; `gw` is the Gateway call's outcome). -/
def generateExplanation (gw : Except Unit String) (ctx : UserContext) : List String :=
  match gw with
  | Except.ok response => explanationReasons ctx response
  | Except.error _ =>
    ["This category matches your " ++ pyStrOpt ctx.nomination_subject ++ " nomination.",
     "Your achievement in " ++
       (match ctx.achievement_focus with
        | Option.some (f :: _) => f
        | _ => "this area") ++ " aligns well with this category."]

/-! ## Helper lemmas -/

/-- `Nat.toDigitsCore` never shrinks a non-empty accumulator to `[]`. -/
theorem toDigitsCore_ne_nil (b f n : Nat) (ds : List Char) (h : ds ≠ []) :
    Nat.toDigitsCore b f n ds ≠ [] := by
  induction f generalizing n ds with
  | zero => simpa [Nat.toDigitsCore]
  | succ f ih =>
    simp only [Nat.toDigitsCore]
    split
    · simp
    · exact ih _ _ (by simp)

/-- `Nat.toDigits` always produces at least one digit. -/
theorem toDigits_ne_nil (b n : Nat) : Nat.toDigits b n ≠ [] := by
  unfold Nat.toDigits
  simp only [Nat.toDigitsCore]
  split
  · simp
  · exact toDigitsCore_ne_nil _ _ _ _ (by simp)

/-- The decimal representation of a natural number is never empty. -/
theorem natRepr_ne_empty (n : Nat) : Nat.repr n ≠ "" := by
  unfold Nat.repr List.asString
  intro h
  have := congrArg String.data h
  simp at this
  exact toDigits_ne_nil 10 n this

/-- The decimal representation of an integer is never empty. -/
theorem intToString_ne_empty (n : Int) : toString n ≠ "" := by
  cases n with
  | ofNat m => exact natRepr_ne_empty m
  | negSucc m =>
    show "-" ++ toString (m + 1) ≠ ""
    intro h
    have := congrArg String.length h
    simp [String.length_append] at this
    exact absurd this.1 (by decide)

/-- Python `str()` of a non-string scalar is a non-empty string. -/
theorem pyStr_ne_empty : ∀ v : PyVal, (∀ s, v ≠ .str s) → pyStr v ≠ ""
  | .str s, h => absurd rfl (h s)
  | .num n, _ => intToString_ne_empty n
  | .boolean b, _ => by cases b <;> decide
  | .none, _ => by decide
  | .arr _, _ => by simp only [pyStr]; decide
  | .obj _, _ => by simp only [pyStr]; decide

/-- `List.find?` splits the list at its first hit. -/
theorem find_first_split {α : Type} {p : α → Bool} :
    ∀ {l : List α} {b : α}, l.find? p = some b →
      ∃ l1 l2, l = l1 ++ b :: l2 ∧ ∀ x ∈ l1, p x = false := by
  intro l
  induction l with
  | nil => intro b h; simp [List.find?] at h
  | cons a t ih =>
    intro b h
    by_cases ha : p a
    · rw [List.find?_cons_of_pos _ ha] at h
      obtain rfl : a = b := by injection h
      exact ⟨[], t, rfl, by simp⟩
    · rw [List.find?_cons_of_neg _ ha] at h
      obtain ⟨l1, l2, rfl, hall⟩ := ih h
      refine ⟨a :: l1, l2, rfl, ?_⟩
      intro x hx
      rcases List.mem_cons.mp hx with rfl | hx
      · simpa using ha
      · exact hall x hx

/-- `_validate_enum_field` on an enumerated field is the first-match scan
over the member list. -/
theorem validateEnumField_eq (f : String) (members : List (String × String))
    (hf : ENUM_MAPPINGS.lookup f = Option.some members) (raw : PyVal) :
    validateEnumField f raw = members.findSome? fun m =>
      if m.2 = normalizeEnumValue raw ∨ pyLower m.1 = normalizeEnumValue raw
      then Option.some m.2 else Option.none := by
  unfold validateEnumField
  rw [hf]

/-- The retry loop makes at most `r` retries after attempt `n`. -/
theorem tenacityRun_fst_le (retryOn : CallError → Bool)
    (attempt : Nat → Except CallError String) :
    ∀ r n, (tenacityRun retryOn attempt r n).1 ≤ n + r := by
  intro r
  induction r with
  | zero =>
    intro n
    rw [tenacityRun]
    cases h : attempt n with
    | error e => simp
    | ok s => simp
  | succ r ih =>
    intro n
    rw [tenacityRun]
    cases h : attempt n with
    | error e =>
      simp only []
      split
      · exact le_trans (ih (n + 1)) (by omega)
      · simp
    | ok s => simp

/-- The retry loop never reports an attempt earlier than the one it
started from. -/
theorem tenacityRun_fst_ge (retryOn : CallError → Bool)
    (attempt : Nat → Except CallError String) :
    ∀ r n, n ≤ (tenacityRun retryOn attempt r n).1 := by
  intro r
  induction r with
  | zero =>
    intro n
    rw [tenacityRun]
    cases h : attempt n with
    | error e => simp
    | ok s => simp
  | succ r ih =>
    intro n
    rw [tenacityRun]
    cases h : attempt n with
    | error e =>
      simp only []
      split
      · exact le_trans (by omega) (ih (n + 1))
      · simp
    | ok s => simp

/-- Every element of a joined list occurs contiguously in the join. -/
theorem infix_sjoin {sep : String} :
    ∀ {parts : List String} {p : String}, p ∈ parts →
      p.data <:+: (sjoin sep parts).data := by
  intro parts
  induction parts with
  | nil => intro p hp; cases hp
  | cons x t ih =>
    intro p hp
    cases t with
    | nil =>
      obtain rfl : p = x := List.mem_singleton.mp hp
      exact List.infix_rfl
    | cons y t2 =>
      rcases List.mem_cons.mp hp with rfl | hmem
      · rw [sjoin]
        exact ⟨[], (sep ++ sjoin sep (y :: t2)).data, by simp [String.data_append]⟩
      · rw [sjoin]
        obtain ⟨s, t3, hst⟩ := ih hmem
        exact ⟨(x ++ sep).data ++ s, t3, by simp [String.data_append, ← hst]⟩

/-- A list member appears (with some index) in its enumeration. -/
theorem mem_enumFrom_of_mem {α : Type} {l : List α} {a : α} (h : a ∈ l) (n : Nat) :
    ∃ ia ∈ List.enumFrom n l, ia.2 = a := by
  have : a ∈ (List.enumFrom n l).map Prod.snd := by
    rw [List.enumFrom_map_snd]; exact h
  obtain ⟨ia, hia, hsnd⟩ := List.mem_map.mp this
  exact ⟨ia, hia, hsnd⟩

/-- Title, program and 500-character-truncated content of each of the top
3 articles occur in the conversation manager's KB context block. -/
theorem kbContext_article_data {arts : List Article} {a : Article}
    (ha : a ∈ arts.take 3) :
    containsS a.titleD (buildKbContext arts) ∧
    containsS a.programD (buildKbContext arts) ∧
    containsS (pyTrunc 500 a.contentD) (buildKbContext arts) := by
  have hne : arts ≠ [] := List.ne_nil_of_mem (List.mem_of_mem_take ha)
  have hbk : buildKbContext arts = sjoin "\n" (kbContextParts arts) := by
    rw [buildKbContext, if_neg hne]
  obtain ⟨ia, hia, rfl⟩ := mem_enumFrom_of_mem ha 1
  have hmem : ∀ s ∈ ["[Source " ++ toString ia.1 ++ " - " ++ ia.2.programD ++ "]",
      "Title: " ++ ia.2.titleD, "Content: " ++ pyTrunc 500 ia.2.contentD, ""],
      s ∈ kbContextParts arts := by
    intro s hs
    rw [kbContextParts, List.mem_flatMap]
    exact ⟨ia, hia, hs⟩
  refine ⟨?_, ?_, ?_⟩
  · rw [hbk]
    refine List.IsInfix.trans ?_ (infix_sjoin (hmem ("Title: " ++ ia.2.titleD) (by simp)))
    exact ⟨"Title: ".data, [], by simp [String.data_append]⟩
  · rw [hbk]
    refine List.IsInfix.trans ?_
      (infix_sjoin (hmem ("[Source " ++ toString ia.1 ++ " - " ++ ia.2.programD ++ "]") (by simp)))
    exact ⟨("[Source " ++ toString ia.1 ++ " - ").data, "]".data, by simp [String.data_append]⟩
  · rw [hbk]
    refine List.IsInfix.trans ?_
      (infix_sjoin (hmem ("Content: " ++ pyTrunc 500 ia.2.contentD) (by simp)))
    exact ⟨"Content: ".data, [], by simp [String.data_append]⟩

/-- Title, program and full content of each of the top 5 articles occur in
the answer generator's context block. -/
theorem answerContext_article_data {arts : List Article} {a : Article}
    (ha : a ∈ arts.take 5) :
    containsS a.titleD (buildAnswerContext arts) ∧
    containsS a.programD (buildAnswerContext arts) ∧
    containsS a.contentD (buildAnswerContext arts) := by
  obtain ⟨ia, hia, rfl⟩ := mem_enumFrom_of_mem ha 1
  have hmem : ∀ s ∈ ["[Source " ++ toString ia.1 ++ " - " ++ ia.2.programD ++ "]",
      "Title: " ++ ia.2.titleD, "Content: " ++ ia.2.contentD, ""],
      s ∈ answerContextParts arts := by
    intro s hs
    rw [answerContextParts, List.mem_flatMap]
    exact ⟨ia, hia, hs⟩
  refine ⟨?_, ?_, ?_⟩
  · refine List.IsInfix.trans ?_ (infix_sjoin (hmem ("Title: " ++ ia.2.titleD) (by simp)))
    exact ⟨"Title: ".data, [], by simp [String.data_append]⟩
  · refine List.IsInfix.trans ?_
      (infix_sjoin (hmem ("[Source " ++ toString ia.1 ++ " - " ++ ia.2.programD ++ "]") (by simp)))
    exact ⟨("[Source " ++ toString ia.1 ++ " - ").data, "]".data, by simp [String.data_append]⟩
  · refine List.IsInfix.trans ?_
      (infix_sjoin (hmem ("Content: " ++ ia.2.contentD) (by simp)))
    exact ⟨"Content: ".data, [], by simp [String.data_append]⟩

/-- Only the first five supplied articles influence the conversation
manager's KB context block. -/
theorem kbContext_take5 (arts : List Article) :
    buildKbContext arts = buildKbContext (arts.take 5) := by
  rw [buildKbContext, buildKbContext, kbContextParts, kbContextParts]
  have h1 : (arts.take 5).take 3 = arts.take 3 := by simp [List.take_take]
  rw [h1]
  by_cases he : arts = []
  · simp [he]
  · rw [if_neg he, if_neg (by simpa using he)]

/-- Only the first five supplied articles influence the answer generator's
context block. -/
theorem answerContext_take5 (arts : List Article) :
    buildAnswerContext arts = buildAnswerContext (arts.take 5) := by
  rw [buildAnswerContext, buildAnswerContext, answerContextParts, answerContextParts]
  have h1 : (arts.take 5).take 5 = arts.take 5 := by simp [List.take_take]
  rw [h1]

/-! ## Claim theorems -/

/-- C1 (counterexample): the claim "completeness is true iff all five
required fields are present AND `achievement_focus` is a non-empty list"
is false: `_check_completeness` accepts a context whose
`achievement_focus` is the empty list, because after
`model_dump(exclude_none=True)` an empty list is present and not `None`. -/
theorem checkCompleteness_accepts_empty_focus :
    checkCompleteness
      { org_type := Option.some "for_profit", org_size := Option.some "small",
        nomination_subject := Option.some "team", description := Option.some "d",
        achievement_focus := Option.some [] } = true ∧
    ({ org_type := Option.some "for_profit", org_size := Option.some "small",
       nomination_subject := Option.some "team", description := Option.some "d",
       achievement_focus := Option.some [] } : UserContext).achievement_focus =
      Option.some [] := by
  exact ⟨rfl, rfl⟩

/-- C1 (amended): for every `UserContext`, the completeness computed by
`_check_completeness` is true iff all five required fields — org_type,
org_size, nomination_subject, description, achievement_focus — are set
(not `None`); `achievement_focus` may be any list, including the empty
one, so completeness flips to true exactly when the last required field
becomes set, in any order of field arrival. -/
theorem checkCompleteness_iff_required_set (ctx : UserContext) :
    checkCompleteness ctx = true ↔
      (ctx.org_type.isSome ∧ ctx.org_size.isSome ∧ ctx.nomination_subject.isSome ∧
       ctx.description.isSome ∧ ctx.achievement_focus.isSome) := by
  simp [checkCompleteness, REQUIRED_FIELDS, fieldPresent]

/-- C2 (counterexample): the claim "every information-intent call yields
exactly the apology and never contacts the Gateway" fails when the
recommendations-shown override fires: with a recent long assistant message
containing "here are", `_build_user_prompt` returns before reaching the
broken information branch, the Gateway is contacted, and its chunks are
streamed. -/
theorem informationIntent_recsShown_streams :
    generateResponseStream ⟨["Hi"], false⟩ "msg" (Option.some "information")
      [⟨"assistant", "here are " ++ String.mk (List.replicate 100 'z')⟩]
      {} Option.none = (["Hi"], true) ∧
    recommendationsShown
      [⟨"assistant", "here are " ++ String.mk (List.replicate 100 'z')⟩] = true ∧
    (["Hi"], true) ≠ ([apologyMessage], false) := by
  refine ⟨rfl, by decide, by decide⟩

/-- C2 (amended): for every information-intent call on which the
recommendations-shown override does not fire, `_build_user_prompt` reads
`user_context.user_name` — an attribute `UserContext` does not define — so
the access raises, the handler yields exactly the fixed apology string as
the single fragment, and the Gateway is never contacted (second component
`false`), for every Gateway behaviour, context and KB article list. -/
theorem informationIntent_yields_apology (gw : StreamBehavior) (message : String)
    (history : List Msg) (ctx : UserContext) (kb : Option (List Article))
    (h : recommendationsShown history = false) :
    generateResponseStream gw message (Option.some "information") history ctx kb =
      ([apologyMessage], false) := by
  rw [generateResponseStream]
  simp [buildUserPrompt, h]

/-- C2 (witness): the amended theorem at empty history and a Gateway that
would stream and then fail. -/
theorem informationIntent_yields_apology_witness :
    recommendationsShown [] = false ∧
    generateResponseStream ⟨["Hi"], true⟩ "hello" (Option.some "information")
      [] {} Option.none = ([apologyMessage], false) :=
  ⟨rfl, informationIntent_yields_apology _ _ _ _ _ rfl⟩

/-- C3 (counterexample): the claim "non-transient provider errors such as
authentication failures propagate immediately without any retry" is false:
`retry_if_exception_type(OpenAIError)` also matches authentication
errors, so a call failing with an authentication error on every attempt is
retried until all 3 attempts are used. -/
theorem chatCompletion_retries_auth_error :
    chatCompletion (fun _ => Except.error (CallError.openai OpenAIErrorKind.authentication)) =
      (3, Except.error (CallError.openai OpenAIErrorKind.authentication)) ∧
    (3 : Nat) ≠ 1 := ⟨rfl, by decide⟩

/-- C3 (amended): `chat_completion` makes at most 3 attempts; the
exponential backoff starts at 2 seconds and every wait lies in [2, 10]
seconds; an exception that is not an `OpenAIError` propagates immediately
without retry; but every `OpenAIError` — including authentication and
malformed-request errors — is retried. -/
theorem chatCompletion_retry_policy (attempt : Nat → Except CallError String) :
    (chatCompletion attempt).1 ≤ 3 ∧
    chatCompletionWait 1 = 2 ∧
    (∀ n, 1 ≤ n → 2 ≤ chatCompletionWait n ∧ chatCompletionWait n ≤ 10) ∧
    (∀ e, attempt 1 = Except.error e → isOpenAIError e = false →
      chatCompletion attempt = (1, Except.error e)) ∧
    (∀ e, attempt 1 = Except.error e → isOpenAIError e = true →
      2 ≤ (chatCompletion attempt).1) := by
  refine ⟨le_trans (tenacityRun_fst_le _ _ 2 1) (by omega), rfl, ?_, ?_, ?_⟩
  · intro n hn
    have h2 : 2 ≤ 2 ^ n := by
      calc 2 = 2 ^ 1 := rfl
        _ ≤ 2 ^ n := Nat.pow_le_pow_right (by omega) hn
    rw [chatCompletionWait]
    omega
  · intro e h1 hne
    rw [chatCompletion, tenacityRun, h1]
    simp [hne]
  · intro e h1 hye
    rw [chatCompletion, tenacityRun, h1]
    simp only [hye, if_true]
    exact tenacityRun_fst_ge isOpenAIError attempt 1 2

/-- C3 (witness): the amended theorem at a call failing with a
non-`OpenAIError` exception: one attempt, immediate propagation; plus the
concrete wait bounds. -/
theorem chatCompletion_retry_policy_witness :
    chatCompletion (fun _ => Except.error CallError.other) =
      (1, Except.error CallError.other) ∧
    chatCompletionWait 1 = 2 ∧
    (2 ≤ chatCompletionWait 2 ∧ chatCompletionWait 2 ≤ 10) := by
  have h := chatCompletion_retry_policy (fun _ => Except.error CallError.other)
  exact ⟨h.2.2.2.1 CallError.other rfl rfl, h.2.1, h.2.2.1 2 (by omega)⟩

set_option maxRecDepth 4000 in
/-- C4 (counterexample): the claim that the context block "contains that
article's ... content" fails in the Dialogue Orchestrator's chat path: for
an article whose content is 501 characters, `_build_kb_context` includes
only the first 500 characters, and the full content occurs nowhere in the
block (the block holds only 500 occurrences of the content's character). -/
theorem kbContext_truncates_long_content :
    ¬ containsS (String.mk (List.replicate 501 'q'))
      (buildKbContext
        [⟨Option.some "T", Option.some (String.mk (List.replicate 501 'q')),
          Option.some "P"⟩]) := by
  intro h
  have hs : List.Sublist (String.mk (List.replicate 501 'q')).data
      (buildKbContext
        [⟨Option.some "T", Option.some (String.mk (List.replicate 501 'q')),
          Option.some "P"⟩]).data := h.sublist
  have hcount := hs.count_le 'q'
  have h1 : ((String.mk (List.replicate 501 'q')).data).count 'q' = 501 := by decide
  have h2 : ((buildKbContext
      [⟨Option.some "T", Option.some (String.mk (List.replicate 501 'q')),
        Option.some "P"⟩]).data).count 'q' = 500 := by decide
  rw [h1, h2] at hcount
  omega

/-- C4 (amended): both context blocks are built from at most the top 5
supplied articles (the conversation manager uses the top 3, the answer
generator the top 5); each included article contributes its title, its
program, and — in the conversation manager — its content truncated to the
first 500 characters (the answer generator includes the full content). -/
theorem kbContext_top5_title_program_content (arts : List Article) :
    buildKbContext arts = buildKbContext (arts.take 5) ∧
    buildAnswerContext arts = buildAnswerContext (arts.take 5) ∧
    (∀ a ∈ arts.take 3,
      containsS a.titleD (buildKbContext arts) ∧
      containsS a.programD (buildKbContext arts) ∧
      containsS (pyTrunc 500 a.contentD) (buildKbContext arts)) ∧
    (∀ a ∈ arts.take 5,
      containsS a.titleD (buildAnswerContext arts) ∧
      containsS a.programD (buildAnswerContext arts) ∧
      containsS a.contentD (buildAnswerContext arts)) :=
  ⟨kbContext_take5 arts, answerContext_take5 arts,
   fun _ ha => kbContext_article_data ha,
   fun _ ha => answerContext_article_data ha⟩

/-- C4 (witness): the amended theorem at a one-article list with short
content. -/
theorem kbContext_top5_title_program_content_witness :
    containsS "T" (buildKbContext [⟨Option.some "T", Option.some "C", Option.some "P"⟩]) ∧
    containsS "P" (buildKbContext [⟨Option.some "T", Option.some "C", Option.some "P"⟩]) ∧
    containsS "C" (buildAnswerContext [⟨Option.some "T", Option.some "C", Option.some "P"⟩]) := by
  have h := kbContext_top5_title_program_content
    [⟨Option.some "T", Option.some "C", Option.some "P"⟩]
  have h3 := h.2.2.1 ⟨Option.some "T", Option.some "C", Option.some "P"⟩ (by simp)
  have h5 := h.2.2.2 ⟨Option.some "T", Option.some "C", Option.some "P"⟩ (by simp)
  exact ⟨h3.1, h3.2.1, h5.2.2⟩

/-- C5: for every enumerated field, `_validate_enum_field` normalises the
raw value (lower-case, spaces and hyphens to underscores) and accepts it
exactly when the normalised form equals some member's value or the
member's lower-cased symbolic name, returning that member's canonical
value; otherwise it returns `None`, so the field is dropped from the
merge.  Concretely, `"Large"` yields `"large"` and `"sooper-size"` is
rejected. -/
theorem validateEnum_normalize_match (f : String) (members : List (String × String))
    (hf : ENUM_MAPPINGS.lookup f = Option.some members) (raw : PyVal) :
    ((∃ m ∈ members, m.2 = normalizeEnumValue raw ∨ pyLower m.1 = normalizeEnumValue raw) →
      ∃ m ∈ members, (m.2 = normalizeEnumValue raw ∨ pyLower m.1 = normalizeEnumValue raw) ∧
        validateEnumField f raw = Option.some m.2) ∧
    ((∀ m ∈ members, ¬(m.2 = normalizeEnumValue raw ∨ pyLower m.1 = normalizeEnumValue raw)) →
      validateEnumField f raw = Option.none) ∧
    validateEnumField "org_size" (.str "Large") = Option.some "large" ∧
    validateEnumField "org_size" (.str "sooper-size") = Option.none := by
  refine ⟨?_, ?_, by decide, by decide⟩
  · intro hex
    rcases hv : validateEnumField f raw with _ | b
    · exfalso
      rw [validateEnumField_eq f members hf raw] at hv
      simp only [List.findSome?_eq_none_iff] at hv
      obtain ⟨m, hm, hcond⟩ := hex
      have := hv m hm
      rw [if_pos hcond] at this
      exact Option.noConfusion this
    · rw [validateEnumField_eq f members hf raw] at hv
      obtain ⟨m, hm, hfm⟩ := List.exists_of_findSome?_eq_some hv
      by_cases hc : m.2 = normalizeEnumValue raw ∨ pyLower m.1 = normalizeEnumValue raw
      · rw [if_pos hc] at hfm
        obtain rfl : m.2 = b := by injection hfm
        exact ⟨m, hm, hc, rfl⟩
      · rw [if_neg hc] at hfm
        exact Option.noConfusion hfm
  · intro hall
    rw [validateEnumField_eq f members hf raw]
    rw [List.findSome?_eq_none_iff]
    intro m hm
    rw [if_neg (hall m hm)]

/-- C5 (witness): the theorem at the `org_size` field with raw values
`"Large"` (accepted as `"large"`) and `"sooper-size"` (rejected). -/
theorem validateEnum_normalize_match_witness :
    ENUM_MAPPINGS.lookup "org_size" = Option.some organizationSizeMembers ∧
    (∃ m ∈ organizationSizeMembers,
      (m.2 = normalizeEnumValue (.str "Large") ∨
        pyLower m.1 = normalizeEnumValue (.str "Large")) ∧
      validateEnumField "org_size" (.str "Large") = Option.some m.2) ∧
    validateEnumField "org_size" (.str "sooper-size") = Option.none := by
  have h := validateEnum_normalize_match "org_size" organizationSizeMembers rfl (.str "Large")
  have h2 := validateEnum_normalize_match "org_size" organizationSizeMembers rfl
    (.str "sooper-size")
  exact ⟨rfl, h.1 ⟨("LARGE", "large"), by decide, by decide⟩, h2.2.1 (by decide)⟩

/-- C6: `classify_intent` never throws; a Gateway reply on which
`json.loads` fails yields exactly the fixed fallback (intent
"information", confidence 0.5, reasoning naming the parse failure), and a
raised Gateway exception yields the same information/0.5 fallback with the
exception message in the reasoning — for every float-parsing behaviour and
every exception message. -/
theorem classifyIntent_fallbacks (floatOfString : String → Option ℚ) (e : String) :
    classifyIntent floatOfString (Except.ok Option.none) =
      Json.obj [("intent", Json.str "information"), ("confidence", Json.num (1/2)),
        ("reasoning",
         Json.str "Failed to parse LLM response, defaulting to information intent")] ∧
    classifyIntent floatOfString (Except.error e) =
      Json.obj [("intent", Json.str "information"), ("confidence", Json.num (1/2)),
        ("reasoning", Json.str ("Classification failed: " ++ e))] := ⟨rfl, rfl⟩

/-- C7: next-field selection walks the fixed priority order and returns the
first field absent from the context (`None` when all seven are present),
and when it returns `None`, `generate_question` returns the fixed
collection-complete message with terminal state "complete" without calling
the Gateway. -/
theorem nextField_priority_and_complete (ctx : UserContext) :
    (nextFieldToCollect ctx = Option.none ↔ ∀ f ∈ FIELD_ORDER, fieldPresent ctx f = true)
    ∧ (∀ f, nextFieldToCollect ctx = Option.some f →
        fieldPresent ctx f = false ∧
        ∃ l1 l2, FIELD_ORDER = l1 ++ f :: l2 ∧ ∀ g ∈ l1, fieldPresent ctx g = true)
    ∧ (nextFieldToCollect ctx = Option.none →
        ∀ gw, generateQuestion gw ctx =
          (⟨Option.none, Option.some collectionCompleteMessage, "complete"⟩, false)) := by
  refine ⟨?_, ?_, ?_⟩
  · rw [nextFieldToCollect, List.find?_eq_none]
    constructor
    · intro h f hf
      have := h f hf
      simpa using this
    · intro h f hf
      simp [h f hf]
  · intro f hf
    have hp := List.find?_some hf
    have hsplit := find_first_split hf
    constructor
    · simpa using hp
    · obtain ⟨l1, l2, heq, hall⟩ := hsplit
      exact ⟨l1, l2, heq, fun g hg => by simpa using hall g hg⟩
  · intro h gw
    simp [generateQuestion, h]

/-- C7 (witness): the theorem at a fully collected context (Gateway
failing, yet the complete message is returned without consulting it) and
at a context missing only `org_size`. -/
theorem nextField_priority_and_complete_witness :
    nextFieldToCollect
      { org_type := Option.some "for_profit", org_size := Option.some "small",
        nomination_subject := Option.some "team", description := Option.some "d",
        achievement_focus := Option.some ["Innovation"],
        tech_orientation := Option.some "tech_user",
        operating_scope := Option.some "national" } = Option.none ∧
    generateQuestion (Except.error ())
      { org_type := Option.some "for_profit", org_size := Option.some "small",
        nomination_subject := Option.some "team", description := Option.some "d",
        achievement_focus := Option.some ["Innovation"],
        tech_orientation := Option.some "tech_user",
        operating_scope := Option.some "national" } =
      (⟨Option.none, Option.some collectionCompleteMessage, "complete"⟩, false) ∧
    fieldPresent
      { org_type := Option.some "for_profit",
        nomination_subject := Option.some "team" } "org_size" = false := by
  refine ⟨rfl, ?_, ?_⟩
  · exact (nextField_priority_and_complete
      { org_type := Option.some "for_profit", org_size := Option.some "small",
        nomination_subject := Option.some "team", description := Option.some "d",
        achievement_focus := Option.some ["Innovation"],
        tech_orientation := Option.some "tech_user",
        operating_scope := Option.some "national" }).2.2 rfl (Except.error ())
  · exact ((nextField_priority_and_complete
      { org_type := Option.some "for_profit",
        nomination_subject := Option.some "team" }).2.1 "org_size" rfl).1

/-- C8 (counterexample): the claim's boundary "<50 chars → General
Achievement, longer → Business Excellence" is off by one: the code tests
`len(description) > 50`, so a 50-character description with no keyword or
verb match falls back to "General Achievement", not "Business
Excellence". -/
theorem inferFocus_boundary_at_50 :
    inferAchievementFocus (String.mk (List.replicate 50 'z')) = ["General Achievement"] ∧
    (String.mk (List.replicate 50 'z')).length = 50 ∧
    (∀ kv ∈ keywordsMap,
      pyIn kv.1 (pyLower (String.mk (List.replicate 50 'z'))) = false) ∧
    (∀ kv ∈ achievementPatterns,
      pyIn kv.1 (pyLower (String.mk (List.replicate 50 'z'))) = false) ∧
    ["General Achievement"] ≠ ["Business Excellence"] := by
  decide

/-- C8 (amended): when neither the keyword table nor the achievement-verb
table matches the description, keyword inference returns the single
generic tag "Business Excellence" for descriptions longer than 50
characters and "General Achievement" for those of at most 50 characters
(in particular for the empty description). -/
theorem inferFocus_length_fallback (d : String)
    (hk : ∀ kv ∈ keywordsMap, pyIn kv.1 (pyLower d) = false)
    (hp : ∀ kv ∈ achievementPatterns, pyIn kv.1 (pyLower d) = false) :
    inferAchievementFocus d =
      if d.length > 50 then ["Business Excellence"] else ["General Achievement"] := by
  have hk' : matchedAreas keywordsMap (pyLower d) = [] := by
    rw [matchedAreas]
    rw [List.filter_eq_nil_iff.mpr (by intro a ha; simp [hk a ha])]
    rfl
  have hp' : matchedAreas achievementPatterns (pyLower d) = [] := by
    rw [matchedAreas]
    rw [List.filter_eq_nil_iff.mpr (by intro a ha; simp [hp a ha])]
    rfl
  rw [inferAchievementFocus]
  simp only [hk', hp', pySetList, List.dedup_nil, if_pos rfl, ite_true, if_true]
  by_cases hc : d.length > 50 <;> simp [hc]

/-- C8 (witness): the amended theorem at the empty description, which
matches nothing and falls back to "General Achievement". -/
theorem inferFocus_length_fallback_witness :
    (∀ kv ∈ keywordsMap, pyIn kv.1 (pyLower "") = false) ∧
    inferAchievementFocus "" = ["General Achievement"] := by
  refine ⟨by decide, ?_⟩
  rw [inferFocus_length_fallback "" (by decide) (by decide)]
  decide

/-- C9 (counterexample): the invariant "achievement_focus is always a list
of non-empty strings" fails for a raw list value: `extract_fields` accepts
a list as-is, so the raw value `[""]` survives with its empty-string
element. -/
theorem achievementFocus_list_passthrough_empty :
    normalizeAchievementFocus (PyVal.arr [PyVal.str ""]) = [PyVal.str ""] ∧
    ¬ (∀ e ∈ normalizeAchievementFocus (PyVal.arr [PyVal.str ""]),
        ∃ s, e = PyVal.str s ∧ s ≠ "") := by
  refine ⟨rfl, ?_⟩
  intro h
  obtain ⟨s, hs, hne⟩ := h (PyVal.str "") (by simp [normalizeAchievementFocus])
  cases hs
  exact hne rfl

/-- C9 (amended): the `achievement_focus` normalisation never yields a
bare scalar; a raw list is passed through unchanged (and may therefore
contain empty or non-string elements), while every non-list raw value —
comma-separated string, number, boolean, `None`, object — yields a list
whose elements are all non-empty strings. -/
theorem achievementFocus_nonempty_unless_list (v : PyVal) :
    (∀ xs, v = .arr xs → normalizeAchievementFocus v = xs) ∧
    ((∀ xs, v ≠ .arr xs) →
      ∀ e ∈ normalizeAchievementFocus v, ∃ s, e = PyVal.str s ∧ s ≠ "") := by
  constructor
  · rintro xs rfl; rfl
  · intro hn e he
    cases v with
    | arr xs => exact absurd rfl (hn xs)
    | str s =>
      simp only [normalizeAchievementFocus, List.mem_map, List.mem_filter] at he
      obtain ⟨t, ⟨_, ht⟩, rfl⟩ := he
      exact ⟨t, rfl, by simpa using ht⟩
    | num n =>
      simp only [normalizeAchievementFocus, List.mem_singleton] at he
      exact ⟨pyStr (.num n), he, pyStr_ne_empty _ (by intro s h; cases h)⟩
    | boolean b =>
      simp only [normalizeAchievementFocus, List.mem_singleton] at he
      exact ⟨pyStr (.boolean b), he, pyStr_ne_empty _ (by intro s h; cases h)⟩
    | none =>
      simp only [normalizeAchievementFocus, List.mem_singleton] at he
      exact ⟨pyStr .none, he, pyStr_ne_empty _ (by intro s h; cases h)⟩
    | obj fs =>
      simp only [normalizeAchievementFocus, List.mem_singleton] at he
      exact ⟨pyStr (.obj fs), he, pyStr_ne_empty _ (by intro s h; cases h)⟩

/-- C9 (witness): the amended theorem at the raw list `["x"]` (passed
through) and at the comma-separated string `"a, b"` (split into non-empty
trimmed parts). -/
theorem achievementFocus_nonempty_unless_list_witness :
    normalizeAchievementFocus (PyVal.arr [PyVal.str "x"]) = [PyVal.str "x"] ∧
    (∀ e ∈ normalizeAchievementFocus (PyVal.str "a, b"),
      ∃ s, e = PyVal.str s ∧ s ≠ "") :=
  ⟨(achievementFocus_nonempty_unless_list (PyVal.arr [PyVal.str "x"])).1 _ rfl,
   (achievementFocus_nonempty_unless_list (PyVal.str "a, b")).2
     (fun _ h => PyVal.noConfusion h)⟩

/-- C10: evaluation at the failing input: a model reply with no parseable
lines (here the empty reply) makes `generate_explanation` return a single
padded reason, although its docstring promises "2-3 concise match reasons"
and the code comment says "Ensure we have at least 2 reasons". -/
theorem explanation_empty_reply_single_reason :
    generateExplanation (Except.ok "") { nomination_subject := Option.some "team" } =
      ["This category aligns with your team nomination."] ∧
    (generateExplanation (Except.ok "")
      { nomination_subject := Option.some "team" }).length = 1 := by
  constructor <;> decide

end Stevie
